import Mathlib

/-!
Verification development for the SIADA schedule generator
(`generar_horario_optimo` and its helpers in `app.py`).

The CP-SAT model built by the Python code is shallowly embedded as a
satisfaction predicate `esSolucion` over boolean assignment valuations
`x : ℕ → ℕ → ℕ → Bool` (instructor, day, group), mirroring each family of
constraints the code posts on the model.  The solver itself is treated as
an oracle (`SolverResult`): a raw status plus a valuation; the CP-SAT
guarantee that OPTIMAL/FEASIBLE valuations satisfy the posted constraints
is taken as a hypothesis where needed.  The post-solve materialization
loop is embedded as executable functions producing `ScheduleRow` values.

Dates are embedded as ordinal day numbers (`ℕ`): adding a `timedelta` of
d days is `+ d`, and the weekday of an ordinal n is `n % 7` with the
convention 0 = Lunes, matching the `dias_esp` table of the source.
-/

/-- One instructor record, as parsed by the loader (keys `Nombre`,
`Jornada del Instructor`, `Exclusiones del Instructor`, `Municipio`). -/
structure Instructor where
  nombre : String
  jornadaInstructor : String
  exclusiones : String
  municipio : String
deriving DecidableEq

/-- One group record, as parsed by the loader (keys `Ficha`, `Programa`,
`Trimestre`, `Jornada`, `Municipio`); the loader guarantees every key is
present (`setdefault`), so total fields are faithful. -/
structure Grupo where
  ficha : String
  programa : String
  trimestre : String
  jornada : String
  municipio : String
deriving DecidableEq

/-- One curriculum session record (keys `asignatura`, `competencia`,
`resultados`, `hora_inicio`, `hora_fin`, `trimestre`). -/
structure Sesion where
  asignatura : String
  competencia : String
  resultados : String
  horaInicio : String
  horaFin : String
  trimestre : String
deriving DecidableEq

/-- The inputs of `generar_horario_optimo`, one field per Python
parameter.  `dias_no_laborables` is a set of day indices; dictionaries
are embedded as association lists. -/
structure Config where
  numInstructores : ℕ
  instructores : List Instructor
  numGrupos : ℕ
  grupos : List Grupo
  diasNoLaborables : Finset ℕ
  ambientes : List String
  curriculoSessions : List Sesion
  curriculoPorTrimestre : List (String × List Sesion)
  horasPorAsignacion : ℕ
  numDias : ℕ
  maxHorasSemana : ℕ
  maxDiasSemana : ℕ
  fechaInicio : ℕ
  forzarEquidad : Bool

/-- `dias_laborables = num_dias - len(dias_no_laborables)` (line 316). -/
def diasLaborables (cfg : Config) : ℕ :=
  cfg.numDias - cfg.diasNoLaborables.card

/-- `max_asignaciones_semana = max(1, max_horas_semana // horas_por_asignacion)`
(line 354), after the clamp `horas_por_asignacion = max(1, horas_por_asignacion)`
(line 320). -/
def maxAsignacionesSemana (cfg : Config) : ℕ :=
  max 1 (cfg.maxHorasSemana / max 1 cfg.horasPorAsignacion)

/-- `num_semanas = (num_dias + 6) // 7` (line 355). -/
def numSemanas (cfg : Config) : ℕ :=
  (cfg.numDias + 6) / 7

/-- The day indices of week `w`: `range(w*7, min(w*7 + 7, num_dias))`
(lines 359-360). -/
def diasSemana (cfg : Config) (w : ℕ) : List ℕ :=
  List.range' (7 * w) (min (7 * w + 7) cfg.numDias - 7 * w)

/-- Number of groups instructor `i` teaches on day `d` under valuation
`x`: the value of `sum(asignacion[(i, d, g)] for g in range(num_grupos))`. -/
def asigsDia (cfg : Config) (x : ℕ → ℕ → ℕ → Bool) (i d : ℕ) : ℕ :=
  (List.range cfg.numGrupos).countP fun g => x i d g

/-- Value of `sum(asignaciones_semana)` for instructor `i`, week `w`
(lines 362-366): all assignments of the week across groups. -/
def cargaSemana (cfg : Config) (x : ℕ → ℕ → ℕ → Bool) (i w : ℕ) : ℕ :=
  ((diasSemana cfg w).map (asigsDia cfg x i)).sum

/-- Value of `sum(dias_trabajados_semana)` for instructor `i`, week `w`
(lines 369-376): working days of the week on which `i` has at least one
assignment; the `trabajo_dia` indicator is linked to the day sum by a
double implication, so its value is exactly `1 ≤ asigsDia`. -/
def diasTrabajados (cfg : Config) (x : ℕ → ℕ → ℕ → Bool) (i w : ℕ) : ℕ :=
  ((diasSemana cfg w).filter fun d => decide (d ∉ cfg.diasNoLaborables)).countP
    fun d => decide (1 ≤ asigsDia cfg x i d)

/-- `total_asignaciones = num_grupos * dias_laborables` (line 381). -/
def totalAsignaciones (cfg : Config) : ℕ :=
  cfg.numGrupos * diasLaborables cfg

/-- `min_asign_por_inst = total_asignaciones // num_instructores if
num_instructores > 0 else 0` (line 382). -/
def minAsignPorInst (cfg : Config) : ℕ :=
  if 0 < cfg.numInstructores then totalAsignaciones cfg / cfg.numInstructores else 0

/-- `max_asign_por_inst = min_asign_por_inst + (1 if num_instructores > 0
and total_asignaciones % num_instructores else 0)` (line 383). -/
def maxAsignPorInst (cfg : Config) : ℕ :=
  minAsignPorInst cfg +
    (if 0 < cfg.numInstructores ∧ totalAsignaciones cfg % cfg.numInstructores ≠ 0
      then 1 else 0)

/-- `margen = max(1, min_asign_por_inst // 10) if min_asign_por_inst > 0
else 1` (line 384). -/
def margen (cfg : Config) : ℕ :=
  if 0 < minAsignPorInst cfg then max 1 (minAsignPorInst cfg / 10) else 1

/-- `total_instructor` (line 387): the whole-horizon load of instructor
`i`, summed over every day and group. -/
def carga (cfg : Config) (x : ℕ → ℕ → ℕ → Bool) (i : ℕ) : ℕ :=
  ((List.range cfg.numDias).map (asigsDia cfg x i)).sum

/-- Constraint family 1 (lines 337-340): on every non-working day no
variable is true. -/
def cNoLaborables (cfg : Config) (x : ℕ → ℕ → ℕ → Bool) : Prop :=
  ∀ d ∈ cfg.diasNoLaborables, ∀ g < cfg.numGrupos, ∀ i < cfg.numInstructores,
    x i d g = false

/-- Constraint family 2 (lines 343-346): on every working day each group
has exactly one instructor (`AddExactlyOne`). -/
def cCobertura (cfg : Config) (x : ℕ → ℕ → ℕ → Bool) : Prop :=
  ∀ d < cfg.numDias, d ∉ cfg.diasNoLaborables →
    ∀ g < cfg.numGrupos,
      ((List.range cfg.numInstructores).countP fun i => x i d g) = 1

/-- Constraint family 3 (lines 349-351): an instructor teaches at most
one group per day (`AddAtMostOne`). -/
def cExclusividad (cfg : Config) (x : ℕ → ℕ → ℕ → Bool) : Prop :=
  ∀ i < cfg.numInstructores, ∀ d < cfg.numDias,
    asigsDia cfg x i d ≤ 1

/-- Constraint family 4 (line 367): weekly session cap per instructor
and 7-day window. -/
def cLimiteSesiones (cfg : Config) (x : ℕ → ℕ → ℕ → Bool) : Prop :=
  ∀ i < cfg.numInstructores, ∀ w < numSemanas cfg,
    cargaSemana cfg x i w ≤ maxAsignacionesSemana cfg

/-- Constraint family 5 (lines 369-378): weekly working-day cap.  The
code posts the sum constraint only when the window contains a working
day; when it does not, the count is 0 and the inequality holds anyway,
so the unconditional form is equivalent. -/
def cLimiteDias (cfg : Config) (x : ℕ → ℕ → ℕ → Bool) : Prop :=
  ∀ i < cfg.numInstructores, ∀ w < numSemanas cfg,
    diasTrabajados cfg x i w ≤ cfg.maxDiasSemana

/-- Constraint family 6 (lines 386-394): equity band, posted per
instructor when `forzar_equidad and num_instructores > 0`.  The lower
bound uses Python `max(0, min_asign_por_inst - margen)` over ints,
embedded in `ℤ`. -/
def cEquidad (cfg : Config) (x : ℕ → ℕ → ℕ → Bool) : Prop :=
  cfg.forzarEquidad = true → 0 < cfg.numInstructores →
    ∀ i < cfg.numInstructores,
      max 0 ((minAsignPorInst cfg : ℤ) - (margen cfg : ℤ)) ≤ (carga cfg x i : ℤ) ∧
      carga cfg x i ≤ maxAsignPorInst cfg + margen cfg

/-- A valuation satisfies every constraint the code posts on the CP-SAT
model: this is what CP-SAT guarantees of the returned assignment when the
status is OPTIMAL or FEASIBLE. -/
def esSolucion (cfg : Config) (x : ℕ → ℕ → ℕ → Bool) : Prop :=
  cNoLaborables cfg x ∧ cCobertura cfg x ∧ cExclusividad cfg x ∧
    cLimiteSesiones cfg x ∧ cLimiteDias cfg x ∧ cEquidad cfg x

instance (cfg : Config) (x : ℕ → ℕ → ℕ → Bool) : Decidable (esSolucion cfg x) := by
  unfold esSolucion cNoLaborables cCobertura cExclusividad cLimiteSesiones
    cLimiteDias cEquidad
  infer_instance

/-- The per-instructor load list `cargas` (lines 399-407); each entry is
pinned to the corresponding load sum by an equality constraint. -/
def cargasList (cfg : Config) (x : ℕ → ℕ → ℕ → Bool) : List ℕ :=
  (List.range cfg.numInstructores).map (carga cfg x)

/-- Value of `max_carga` (line 411): the maximum of the load list. -/
def maxDeLista : List ℕ → ℕ
  | [] => 0
  | a :: t => max a (maxDeLista t)

/-- Value of `min_carga` (line 412): the minimum of the load list (the
empty case never arises on solver paths that read it). -/
def minDeLista : List ℕ → ℕ
  | [] => 0
  | [a] => a
  | a :: b :: t => min a (minDeLista (b :: t))

/-- Value of the objective `max_carga - min_carga` (line 413). -/
def objetivoValor (cfg : Config) (x : ℕ → ℕ → ℕ → Bool) : ℕ :=
  maxDeLista (cargasList cfg x) - minDeLista (cargasList cfg x)

/-- The raw CP-SAT termination status, plus a constructor for any other
integer code (`status_names.get` defaults those to UNKNOWN). -/
inductive RawStatus where
  | optimal
  | feasible
  | infeasible
  | modelInvalid
  | unknown
  | other (code : ℤ)
deriving DecidableEq

/-- `status_names.get(status, "UNKNOWN")` (lines 425-432). -/
def statusName : RawStatus → String
  | .optimal => "OPTIMAL"
  | .feasible => "FEASIBLE"
  | .infeasible => "INFEASIBLE"
  | .modelInvalid => "MODEL_INVALID"
  | .unknown => "UNKNOWN"
  | .other _ => "UNKNOWN"

/-- The outcome of one `solver.Solve(model)` call, treated as an oracle:
a raw status, the variable valuation, and the diagnostic counters
(`WallTime`, `NumConflicts`, `NumBranches`).  Wall time is embedded as a
natural number of time units. -/
structure SolverResult where
  status : RawStatus
  value : ℕ → ℕ → ℕ → Bool
  wallTime : ℕ
  conflicts : ℕ
  branches : ℕ

/-- A value in the `stats` dictionary: the status string or a counter. -/
inductive StatVal where
  | s (v : String)
  | n (v : ℕ)
deriving DecidableEq

/-- `dias_esp` (lines 47-55): Spanish weekday names, keyed by
`weekday()`. -/
def diasEsp : ℕ → String
  | 0 => "Lunes"
  | 1 => "Martes"
  | 2 => "Miércoles"
  | 3 => "Jueves"
  | 4 => "Viernes"
  | 5 => "Sábado"
  | _ => "Domingo"

/-- `get_dia_semana(fecha)` (lines 45-56) on ordinal dates: the weekday
of ordinal `n` is `n % 7`. -/
def getDiaSemana (fecha : ℕ) : String :=
  diasEsp (fecha % 7)

/-- One output row of the schedule, one field per key of the dict built
at lines 500-521; `fecha` is the ordinal date (the code renders it with
`strftime`). -/
structure ScheduleRow where
  fecha : ℕ
  dia : String
  jornada : String
  ficha : String
  programa : String
  trimestre : String
  horaInicio : String
  horaFin : String
  municipio : String
  asignatura : String
  competencia : String
  resultados : String
  instructor : String
  jornadaDelInstructor : String
  ambiente : String
  estado : String
  notas : String
  festivo : String
  exclusiones : String
deriving DecidableEq

/-- `dict.get(key, default)` on the trimester index. -/
def dictGet (m : List (String × List Sesion)) (key : String) (dflt : List Sesion) :
    List Sesion :=
  match m.find? fun p => p.1 == key with
  | some p => p.2
  | none => dflt

/-- The synthetic placeholder session (lines 471-478); the source dict
has no `trimestre` key, so that field is the missing-key default. -/
def sesionPlaceholder : Sesion :=
  { asignatura := "Sin asignatura"
    competencia := "N/A"
    resultados := "N/A"
    horaInicio := "08:00"
    horaFin := "12:00"
    trimestre := "N/A" }

/-- Resolution of the session list for a trimester key (lines 465-478):
dictionary lookup with the full session list as default, then the `or`
fallback for an empty value, then the placeholder if still empty. -/
def resolverSesiones (cfg : Config) (key : String) : List Sesion :=
  let s0 := dictGet cfg.curriculoPorTrimestre key cfg.curriculoSessions
  let s1 := if s0.isEmpty then cfg.curriculoSessions else s0
  if s1.isEmpty then [sesionPlaceholder] else s1

/-- `curr_info` (lines 481-483): cyclic rotation
`(d * num_grupos + g) % len(sesiones_trimestre)` inside the resolved
list. -/
def sesionElegida (cfg : Config) (key : String) (d g : ℕ) : Sesion :=
  let s := resolverSesiones cfg key
  s.getD ((d * cfg.numGrupos + g) % s.length) sesionPlaceholder

/-- Default group for an out-of-range index (never reached when
`num_grupos = len(grupos)` as in every real call). -/
def grupoPorDefecto : Grupo :=
  { ficha := "N/A", programa := "N/A", trimestre := "1", jornada := "N/A",
    municipio := "N/A" }

/-- Default instructor for an out-of-range index (never reached when
`num_instructores = len(instructores)` as in every real call). -/
def instructorPorDefecto : Instructor :=
  { nombre := "N/A", jornadaInstructor := "N/A", exclusiones := "N/A",
    municipio := "N/A" }

/-- `jornada_options` (line 486). -/
def jornadaOptions : List String :=
  ["Mañana", "Tarde", "Noche"]

/-- Builds the row for one true variable `(d, g, i)` (lines 447-521):
date and weekday, round-robin environment, trimester session, 3-way
time-of-day rotation, and the descriptive fields. -/
def renderRow (cfg : Config) (t : ℕ × ℕ × ℕ) : ScheduleRow :=
  let d := t.1
  let g := t.2.1
  let i := t.2.2
  let fechaReal := cfg.fechaInicio + d
  let esFestivo := d ∈ cfg.diasNoLaborables
  let grupoInfo := cfg.grupos.getD g grupoPorDefecto
  let instructorInfo := cfg.instructores.getD i instructorPorDefecto
  let ambIdx := (d * cfg.numGrupos + g) % cfg.ambientes.length
  let ambiente := cfg.ambientes.getD ambIdx "N/A"
  let currInfo := sesionElegida cfg grupoInfo.trimestre d g
  let jornadaDia := jornadaOptions.getD ((d + g) % jornadaOptions.length) "Noche"
  let horaInicioStr := if jornadaDia = "Mañana" then "08:00"
    else if jornadaDia = "Tarde" then "14:00" else "18:00"
  let horaFinStr := if jornadaDia = "Mañana" then "13:00"
    else if jornadaDia = "Tarde" then "18:00" else "22:00"
  { fecha := fechaReal
    dia := getDiaSemana fechaReal
    jornada := jornadaDia
    ficha := grupoInfo.ficha
    programa := grupoInfo.programa
    trimestre := grupoInfo.trimestre
    horaInicio := horaInicioStr
    horaFin := horaFinStr
    municipio := grupoInfo.municipio
    asignatura := currInfo.asignatura
    competencia := currInfo.competencia
    resultados := currInfo.resultados
    instructor := instructorInfo.nombre
    jornadaDelInstructor := instructorInfo.jornadaInstructor
    ambiente := ambiente
    estado := "Programado"
    notas := ""
    festivo := if esFestivo then "Sí" else "No"
    exclusiones := instructorInfo.exclusiones }

/-- The `(d, g, i)` triples the materialization loop emits, in loop
order: `for d in range(num_dias): for g in range(num_grupos): for i in
range(num_instructores): if solver.Value(...) == 1` (lines 447-458). -/
def asignaciones (cfg : Config) (x : ℕ → ℕ → ℕ → Bool) : List (ℕ × ℕ × ℕ) :=
  (List.range cfg.numDias).flatMap fun d =>
    (List.range cfg.numGrupos).flatMap fun g =>
      (((List.range cfg.numInstructores).filter fun i => x i d g).map fun i => (d, g, i))

/-- The `resultados` list (lines 444-521): one rendered row per emitted
triple, in loop order. -/
def filasResultado (cfg : Config) (x : ℕ → ℕ → ℕ → Bool) : List ScheduleRow :=
  (asignaciones cfg x).map (renderRow cfg)

/-- The canonical presentation order of
`sort_values(['Fecha', 'Hora Inicio', 'Programa'])` (lines 526-529):
lexicographic on date, then start time, then program name. -/
def claveOrden (a b : ScheduleRow) : Prop :=
  a.fecha < b.fecha ∨ (a.fecha = b.fecha ∧
    (a.horaInicio < b.horaInicio ∨ (a.horaInicio = b.horaInicio ∧
      (a.programa < b.programa ∨ a.programa = b.programa))))

instance : DecidableRel claveOrden := fun a b => by
  unfold claveOrden
  infer_instance

/-- The materialization pass: render every emitted triple, then apply
the canonical sort (lines 443-533). -/
def materializar (cfg : Config) (x : ℕ → ℕ → ℕ → Bool) : List ScheduleRow :=
  List.insertionSort claveOrden (filasResultado cfg x)

/-- The value `generar_horario_optimo` returns: the row list, the status
string, and the `stats` dictionary as an association list. -/
structure Resultado where
  horario : List ScheduleRow
  status : String
  stats : List (String × StatVal)
deriving DecidableEq

/-- True exactly when control reaches `solver.Solve(model)` (line 423):
the only earlier return is the no-working-days short circuit at lines
316-318. -/
def llamaAlSolver (cfg : Config) : Bool :=
  !decide (cfg.numDias ≤ cfg.diasNoLaborables.card)

/-- `generar_horario_optimo` (lines 295-535), with the solver call
abstracted as the oracle `solver`: the short circuit, the status-name
mapping, the `stats` dictionary, and the materialization on
OPTIMAL/FEASIBLE. -/
def generarHorarioOptimo (cfg : Config) (solver : SolverResult) : Resultado :=
  if cfg.numDias ≤ cfg.diasNoLaborables.card then
    { horario := [], status := "NO_DIAS_LABORABLES", stats := [] }
  else
    let nombre := statusName solver.status
    let stats : List (String × StatVal) :=
      [("status", .s nombre),
       ("tiempo_solver", .n solver.wallTime),
       ("conflictos", .n solver.conflicts),
       ("ramas", .n solver.branches),
       ("dias_laborables", .n (diasLaborables cfg)),
       ("total_asignaciones_esperadas", .n (totalAsignaciones cfg))]
    if solver.status = RawStatus.optimal ∨ solver.status = RawStatus.feasible then
      { horario := materializar cfg solver.value, status := nombre, stats := stats }
    else
      { horario := [], status := nombre, stats := stats }

/-- The acceptance check of the loader `cargar_archivos_basic` (lines
269-271): it refuses to hand data to the engine when there is no group
or no instructor. -/
def cargaArchivosAcepta (numGrupos numInstructores : ℕ) : Bool :=
  !(numGrupos == 0 || numInstructores == 0)

/-! ### Generic list helpers used by the counting arguments -/

lemma countP_flatMap_eq {α β : Type} (p : β → Bool) (f : α → List β) :
    ∀ l : List α, (l.flatMap f).countP p = (l.map fun a => (f a).countP p).sum := by
  intro l
  induction l with
  | nil => simp
  | cons a t ih => simp [List.flatMap_cons, List.countP_append, ih]

lemma sum_map_range_zero (f : ℕ → ℕ) (n : ℕ) (h0 : ∀ b, b < n → f b = 0) :
    ((List.range n).map f).sum = 0 := by
  apply List.sum_eq_zero
  intro y hy
  obtain ⟨a, ha, rfl⟩ := List.mem_map.mp hy
  exact h0 a (List.mem_range.mp ha)

lemma sum_map_range_single :
    ∀ (n : ℕ) (f : ℕ → ℕ) (a : ℕ), a < n → (∀ b, b < n → b ≠ a → f b = 0) →
      ((List.range n).map f).sum = f a := by
  intro n
  induction n with
  | zero => intro f a ha; exact absurd ha (Nat.not_lt_zero a)
  | succ m ih =>
    intro f a ha h0
    rw [List.range_succ, List.map_append, List.sum_append]
    simp only [List.map_cons, List.map_nil, List.sum_cons, List.sum_nil]
    by_cases ham : a = m
    · rw [sum_map_range_zero f m fun b hb => h0 b (by omega) (by omega), ham]
      omega
    · rw [ih f a (by omega) fun b hb hb2 => h0 b (by omega) hb2,
        h0 m (by omega) fun hc => ham hc.symm]
      omega

lemma countP_range_decide_eq (q : ℕ → Bool) (i0 : ℕ) :
    ∀ n : ℕ, ((List.range n).countP fun i => decide (i = i0) && q i) =
      if i0 < n ∧ q i0 = true then 1 else 0 := by
  intro n
  induction n with
  | zero => simp
  | succ m ih =>
    rw [List.range_succ, List.countP_append, ih, List.countP_cons, List.countP_nil]
    by_cases hm : m = i0
    · have h1 : ¬ (i0 < m ∧ q i0 = true) := by rintro ⟨hlt, _⟩; omega
      by_cases hq : q i0 = true
      · have hsm : (decide (m = i0) && q m) = true := by rw [hm]; simp [hq]
        rw [if_neg h1, if_pos hsm, if_pos ⟨by omega, hq⟩]
      · rw [Bool.not_eq_true] at hq
        have hsm : (decide (m = i0) && q m) = false := by rw [hm]; simp [hq]
        rw [if_neg h1, hsm, if_neg (by simp),
          if_neg (by rintro ⟨_, h⟩; simp [hq] at h)]
    · have hsm : (decide (m = i0) && q m) = false := by simp [hm]
      rw [hsm, if_neg (show ¬ (false = true) by simp)]
      by_cases hq : q i0 = true
      · by_cases hlt : i0 < m
        · rw [if_pos ⟨hlt, hq⟩, if_pos ⟨by omega, hq⟩]
        · rw [if_neg (by rintro ⟨h, _⟩; exact hlt h),
            if_neg (by rintro ⟨h, _⟩; omega)]
      · rw [Bool.not_eq_true] at hq
        rw [if_neg (by rintro ⟨_, h⟩; simp [hq] at h),
          if_neg (by rintro ⟨_, h⟩; simp [hq] at h)]

lemma sum_indicator_eq_countP (q : ℕ → Bool) :
    ∀ l : List ℕ, (l.map fun g => if q g = true then 1 else 0).sum = l.countP q := by
  intro l
  induction l with
  | nil => simp
  | cons a t ih =>
    rw [List.map_cons, List.sum_cons, List.countP_cons, ih]
    by_cases hq : q a = true <;> simp [hq] <;> omega

/-! ### Concrete inputs used in witnesses and counterexamples -/

/-- A sample curriculum session. -/
def sesionEjemplo : Sesion :=
  { asignatura := "Programacion Web", competencia := "N/A", resultados := "N/A",
    horaInicio := "08:00", horaFin := "12:00", trimestre := "1" }

/-- A sample group. -/
def grupoEjemplo : Grupo :=
  { ficha := "2658235", programa := "ADSO", trimestre := "1",
    jornada := "Mañana", municipio := "Bogota" }

/-- A sample instructor. -/
def instructorEjemplo : Instructor :=
  { nombre := "Juan Perez", jornadaInstructor := "Mañana", exclusiones := "N/A",
    municipio := "Bogota" }

/-- A minimal well-formed configuration: 1 instructor, 1 group, 1 day,
no non-working days, defaults otherwise. -/
def cfgBase : Config :=
  { numInstructores := 1, instructores := [instructorEjemplo],
    numGrupos := 1, grupos := [grupoEjemplo],
    diasNoLaborables := ∅, ambientes := ["A-101"],
    curriculoSessions := [sesionEjemplo],
    curriculoPorTrimestre := [("1", [sesionEjemplo])],
    horasPorAsignacion := 4, numDias := 1, maxHorasSemana := 40,
    maxDiasSemana := 6, fechaInicio := 0, forzarEquidad := true }

/-- The all-true valuation. -/
def xTodo : ℕ → ℕ → ℕ → Bool := fun _ _ _ => true

/-- `cfgBase` with a weekly hour budget strictly below one session
(`max_horas_semana = 2` against 4-hour sessions). -/
def cfgC2 : Config := { cfgBase with maxHorasSemana := 2 }

/-- `cfgBase` with its single day marked non-working. -/
def cfgC4 : Config := { cfgBase with diasNoLaborables := {0} }

/-- `cfgBase` with zero instructors. -/
def cfgC5 : Config := { cfgBase with numInstructores := 0, instructores := [] }

/-- `cfgBase` with no trimester index at all. -/
def cfgC6 : Config := { cfgBase with curriculoPorTrimestre := [] }

/-- A sample solver outcome reporting OPTIMAL. -/
def solverEjemplo : SolverResult :=
  { status := .optimal, value := xTodo, wallTime := 0, conflicts := 0, branches := 0 }

/-- A sample solver outcome reporting INFEASIBLE. -/
def solverInfeasible : SolverResult :=
  { status := .infeasible, value := fun _ _ _ => false, wallTime := 0,
    conflicts := 0, branches := 0 }

/-! ### C2: weekly session cap -/

/-- C2 counterexample: with `max_horas_semana = 2` and 4-hour sessions
the claimed bound `floor(max_weekly_hours / max(1, hours_per_session))`
is 0, yet the model accepts a valuation whose first window holds one
assignment — the code caps at `max(1, ...)`, not at the raw quotient. -/
theorem c2_counterexample :
    esSolucion cfgC2 xTodo ∧
      ¬ cargaSemana cfgC2 xTodo 0 0 ≤
          cfgC2.maxHorasSemana / max 1 cfgC2.horasPorAsignacion := by
  constructor
  · decide
  · decide

/-- C2 (amended): in every solution accepted by the model, for every
instructor and every consecutive 7-day window, the number of
assignments in the window is at most
`max(1, floor(max_weekly_hours / max(1, hours_per_session)))`. -/
theorem c2_amended_cap (cfg : Config) (x : ℕ → ℕ → ℕ → Bool)
    (h : esSolucion cfg x) :
    ∀ i < cfg.numInstructores, ∀ w < numSemanas cfg,
      cargaSemana cfg x i w ≤
        max 1 (cfg.maxHorasSemana / max 1 cfg.horasPorAsignacion) :=
  h.2.2.2.1

/-- Witness for `c2_amended_cap` at the concrete tight configuration. -/
theorem c2_amended_cap_witness :
    esSolucion cfgC2 xTodo ∧
      cargaSemana cfgC2 xTodo 0 0 ≤
        max 1 (cfgC2.maxHorasSemana / max 1 cfgC2.horasPorAsignacion) :=
  ⟨by decide, c2_amended_cap cfgC2 xTodo (by decide) 0 (by decide) 0 (by decide)⟩

/-! ### C4: closed status set -/

/-- C4 counterexample: when every day of the horizon is non-working the
function returns the status string NO_DIAS_LABORABLES, which is outside
the claimed closed set. -/
theorem c4_counterexample :
    (generarHorarioOptimo cfgC4 solverEjemplo).status = "NO_DIAS_LABORABLES" ∧
      "NO_DIAS_LABORABLES" ∉
        (["OPTIMAL", "FEASIBLE", "INFEASIBLE", "MODEL_INVALID", "UNKNOWN"] :
          List String) := by
  constructor
  · rfl
  · decide

/-- C4 (amended): on every input with at least one working day the
returned status is drawn from the closed set
{OPTIMAL, FEASIBLE, INFEASIBLE, MODEL_INVALID, UNKNOWN}; the
no-working-days short circuit alone returns the extra status
NO_DIAS_LABORABLES. -/
theorem c4_amended_closed_set (cfg : Config) (solver : SolverResult)
    (h : cfg.diasNoLaborables.card < cfg.numDias) :
    (generarHorarioOptimo cfg solver).status ∈
      (["OPTIMAL", "FEASIBLE", "INFEASIBLE", "MODEL_INVALID", "UNKNOWN"] :
        List String) := by
  rcases hs : solver.status with _ | _ | _ | _ | _ | code <;>
    simp [generarHorarioOptimo, Nat.not_le.mpr h, hs, statusName]

/-- Witness for `c4_amended_closed_set` at the base configuration. -/
theorem c4_amended_closed_set_witness :
    cfgBase.diasNoLaborables.card < cfgBase.numDias ∧
      (generarHorarioOptimo cfgBase solverEjemplo).status ∈
        (["OPTIMAL", "FEASIBLE", "INFEASIBLE", "MODEL_INVALID", "UNKNOWN"] :
          List String) :=
  ⟨by decide, c4_amended_closed_set cfgBase solverEjemplo (by decide)⟩

/-! ### C5: zero instructors or groups -/

/-- C5 counterexample: with zero instructors, one group and one working
day the engine does NOT reject before solving — control reaches
`solver.Solve` and the outcome is the ordinary solver status, not a
pre-solve configuration error. -/
theorem c5_counterexample :
    cfgC5.numInstructores = 0 ∧
      cfgC5.diasNoLaborables.card < cfgC5.numDias ∧
      llamaAlSolver cfgC5 = true ∧
      (generarHorarioOptimo cfgC5 solverInfeasible).status = "INFEASIBLE" := by
  exact ⟨rfl, by decide, by decide, rfl⟩

/-- C5 (amended): `generar_horario_optimo` performs no zero-instructor
or zero-group rejection — whenever at least one working day exists it
always reaches the solver; the zero-count rejection lives upstream in
`cargar_archivos_basic`; and with zero instructors but at least one
group on a working day the built model is infeasible by construction. -/
theorem c5_amended_no_rechazo :
    (∀ cfg : Config, cfg.diasNoLaborables.card < cfg.numDias →
        llamaAlSolver cfg = true) ∧
      (∀ nG nI : ℕ, nG = 0 ∨ nI = 0 → cargaArchivosAcepta nG nI = false) ∧
      (∀ cfg : Config, cfg.numInstructores = 0 → 0 < cfg.numGrupos →
        (∃ d, d < cfg.numDias ∧ d ∉ cfg.diasNoLaborables) →
        ¬ ∃ x, esSolucion cfg x) := by
  refine ⟨?_, ?_, ?_⟩
  · intro cfg h
    simp [llamaAlSolver, Nat.not_le.mpr h]
  · rintro nG nI (rfl | rfl) <;> simp [cargaArchivosAcepta]
  · rintro cfg h0 hG ⟨d, hd, hdn⟩ ⟨x, hx⟩
    have hcov := hx.2.1 d hd hdn 0 hG
    simp [h0] at hcov

/-- Witness for `c5_amended_no_rechazo` at concrete inputs. -/
theorem c5_amended_no_rechazo_witness :
    llamaAlSolver cfgBase = true ∧ cargaArchivosAcepta 0 1 = false :=
  ⟨c5_amended_no_rechazo.1 cfgBase (by decide),
   c5_amended_no_rechazo.2.1 0 1 (Or.inl rfl)⟩

/-! ### C6: curriculum session resolution -/

/-- helper: the fallback chain of the session resolution never yields
the empty list. -/
lemma fallback_ne_nil (full s0 : List Sesion) :
    (if (if s0.isEmpty then full else s0).isEmpty then [sesionPlaceholder]
      else (if s0.isEmpty then full else s0)) ≠ [] := by
  by_cases h : (if s0.isEmpty then full else s0).isEmpty = true
  · rw [if_pos h]
    simp
  · rw [if_neg h]
    simpa [List.isEmpty_iff] using h

/-- helper: the resolved session list is never empty. -/
lemma resolverSesiones_ne_nil (cfg : Config) (key : String) :
    resolverSesiones cfg key ≠ [] :=
  fallback_ne_nil cfg.curriculoSessions
    (dictGet cfg.curriculoPorTrimestre key cfg.curriculoSessions)

/-- C6: session resolution looks the trimester key up in the index,
falls back to the full session list when the key is absent, falls back
to the one placeholder session when that list is empty too, and the
picked index `(d * num_grupos + g) % L` is always in range of the
resolved (never empty) list, so materialization never aborts; the
rendered row carries exactly the session picked for the trimester key
of the group. -/
theorem c6_sesiones (cfg : Config) (key : String) (d g : ℕ) :
    resolverSesiones cfg key ≠ [] ∧
      (d * cfg.numGrupos + g) % (resolverSesiones cfg key).length <
        (resolverSesiones cfg key).length ∧
      ((cfg.curriculoPorTrimestre.find? fun p => p.1 == key) = none →
        cfg.curriculoSessions ≠ [] →
        resolverSesiones cfg key = cfg.curriculoSessions) ∧
      ((cfg.curriculoPorTrimestre.find? fun p => p.1 == key) = none →
        cfg.curriculoSessions = [] →
        resolverSesiones cfg key = [sesionPlaceholder]) ∧
      sesionElegida cfg key d g =
        (resolverSesiones cfg key).getD
          ((d * cfg.numGrupos + g) % (resolverSesiones cfg key).length)
          sesionPlaceholder ∧
      ∀ i : ℕ,
        (renderRow cfg (d, g, i)).asignatura =
          (sesionElegida cfg (cfg.grupos.getD g grupoPorDefecto).trimestre d g).asignatura := by
  have hne := resolverSesiones_ne_nil cfg key
  refine ⟨hne, Nat.mod_lt _ (List.length_pos.mpr hne), ?_, ?_, rfl, fun i => rfl⟩
  · intro hfind hfull
    simp [resolverSesiones, dictGet, hfind, List.isEmpty_iff, hfull]
  · intro hfind hfull
    simp [resolverSesiones, dictGet, hfind, List.isEmpty_iff, hfull]

/-- Witness for `c6_sesiones`: a key absent from an empty index resolves
to the full session list. -/
theorem c6_sesiones_witness :
    (cfgC6.curriculoPorTrimestre.find? fun p => p.1 == "2") = none ∧
      resolverSesiones cfgC6 "2" = cfgC6.curriculoSessions :=
  ⟨rfl, (c6_sesiones cfgC6 "2" 0 0).2.2.1 rfl (by decide)⟩

/-! ### C8: determinism of materialization -/

/-- C8: the materialization pass is deterministic — two runs on equal
static inputs and pointwise-equal solved assignments produce identical
row lists in identical order. -/
theorem c8_determinismo (cfg₁ cfg₂ : Config) (x₁ x₂ : ℕ → ℕ → ℕ → Bool)
    (hc : cfg₁ = cfg₂) (hx : ∀ i d g, x₁ i d g = x₂ i d g) :
    materializar cfg₁ x₁ = materializar cfg₂ x₂ := by
  subst hc
  have hfun : x₁ = x₂ := funext fun i => funext fun d => funext fun g => hx i d g
  rw [hfun]

/-- Witness for `c8_determinismo` at the base configuration. -/
theorem c8_determinismo_witness :
    materializar cfgBase xTodo = materializar cfgBase xTodo :=
  c8_determinismo cfgBase cfgBase xTodo xTodo rfl fun _ _ _ => rfl

/-! ### C10: the no-working-days short circuit -/

/-- C10: when `num_dias - len(dias_no_laborables) ≤ 0` the function
returns an empty row list, the status NO_DIAS_LABORABLES and the empty
stats dictionary, while every run that reaches the solver returns a
stats dictionary with exactly the six documented keys. -/
theorem c10_sin_dias (cfg : Config) (solver : SolverResult)
    (h : cfg.numDias ≤ cfg.diasNoLaborables.card) :
    generarHorarioOptimo cfg solver =
        { horario := [], status := "NO_DIAS_LABORABLES", stats := [] } ∧
      ∀ cfg2 : Config, ∀ solver2 : SolverResult,
        cfg2.diasNoLaborables.card < cfg2.numDias →
        (generarHorarioOptimo cfg2 solver2).stats.map Prod.fst =
          ["status", "tiempo_solver", "conflictos", "ramas",
           "dias_laborables", "total_asignaciones_esperadas"] := by
  constructor
  · unfold generarHorarioOptimo
    rw [if_pos h]
  · intro cfg2 solver2 h2
    simp only [generarHorarioOptimo, Nat.not_le.mpr h2, if_false]
    split <;> rfl

/-- Witness for `c10_sin_dias` at the all-days-non-working input. -/
theorem c10_sin_dias_witness :
    cfgC4.numDias ≤ cfgC4.diasNoLaborables.card ∧
      generarHorarioOptimo cfgC4 solverEjemplo =
        { horario := [], status := "NO_DIAS_LABORABLES", stats := [] } :=
  ⟨by decide, (c10_sin_dias cfgC4 solverEjemplo (by decide)).1⟩

/-! ### C7: relaxing the weekly caps -/

/-- C7: every solution of the model stays a solution after raising
`max_horas_semana` or `max_dias_semana` with every other input fixed, so
a feasible configuration never becomes infeasible under such a
relaxation. -/
theorem c7_monotonia (cfg : Config) (x : ℕ → ℕ → ℕ → Bool) (h2 k2 : ℕ)
    (hh : cfg.maxHorasSemana ≤ h2) (hk : cfg.maxDiasSemana ≤ k2)
    (hs : esSolucion cfg x) :
    esSolucion { cfg with maxHorasSemana := h2, maxDiasSemana := k2 } x := by
  obtain ⟨h1, hcov, hexc, hses, hdias, heq⟩ := hs
  refine ⟨h1, hcov, hexc, ?_, ?_, heq⟩
  · intro i hi w hw
    refine le_trans (hses i hi w hw) ?_
    unfold maxAsignacionesSemana
    exact max_le_max le_rfl (Nat.div_le_div_right hh)
  · intro i hi w hw
    exact le_trans (hdias i hi w hw) hk

/-- Witness for `c7_monotonia`: the tight configuration stays solvable
after raising both caps. -/
theorem c7_monotonia_witness :
    cfgC2.maxHorasSemana ≤ 4 ∧ cfgC2.maxDiasSemana ≤ 7 ∧
      esSolucion { cfgC2 with maxHorasSemana := 4, maxDiasSemana := 7 } xTodo :=
  ⟨by decide, by decide,
   c7_monotonia cfgC2 xTodo 4 7 (by decide) (by decide) (by decide)⟩

/-! ### C3: the equity band -/

/-- Modelled from the spec wording of the claim: the number of working
days, counted as the days of the horizon that are not non-working. -/
def numDiasLaborablesSpec (cfg : Config) : ℕ :=
  ((Finset.range cfg.numDias).filter fun d => d ∉ cfg.diasNoLaborables).card

/-- Modelled from the spec wording of the claim:
`total_required = num_groups * num_working_days`. -/
def totalRequired (cfg : Config) : ℕ :=
  cfg.numGrupos * numDiasLaborablesSpec cfg

/-- Modelled from the spec wording of the claim:
`target_low = total_required div num_instructors`. -/
def targetLow (cfg : Config) : ℕ :=
  totalRequired cfg / cfg.numInstructores

/-- Modelled from the spec wording of the claim: `target_high =
target_low + 1` when the division leaves a remainder, else
`target_low`. -/
def targetHigh (cfg : Config) : ℕ :=
  if totalRequired cfg % cfg.numInstructores ≠ 0 then targetLow cfg + 1
  else targetLow cfg

/-- Modelled from the spec wording of the claim:
`margin = max(1, target_low div 10)`. -/
def targetMargin (cfg : Config) : ℕ :=
  max 1 (targetLow cfg / 10)

/-- helper: the code margin agrees with the claim formula in every
case, including `min_asign_por_inst = 0`. -/
lemma margen_eq_formula (cfg : Config) :
    margen cfg = max 1 (minAsignPorInst cfg / 10) := by
  unfold margen
  split
  · rfl
  · rename_i hpos
    have h0 : minAsignPorInst cfg = 0 := by omega
    rw [h0]
    simp

/-- C3: with equity requested and at least one instructor, every
accepted solution puts every whole-horizon load inside
`[max(0, target_low - margin), target_high + margin]` with the claim
formulas for `target_low`, `target_high` and `margin`. -/
theorem c3_banda_equidad (cfg : Config) (x : ℕ → ℕ → ℕ → Bool)
    (heq : cfg.forzarEquidad = true) (hn : 0 < cfg.numInstructores)
    (hsub : cfg.diasNoLaborables ⊆ Finset.range cfg.numDias)
    (h : esSolucion cfg x) :
    ∀ i < cfg.numInstructores,
      max 0 ((targetLow cfg : ℤ) - (targetMargin cfg : ℤ)) ≤ (carga cfg x i : ℤ) ∧
      carga cfg x i ≤ targetHigh cfg + targetMargin cfg := by
  have hW : numDiasLaborablesSpec cfg = diasLaborables cfg := by
    unfold numDiasLaborablesSpec diasLaborables
    rw [← Finset.sdiff_eq_filter, Finset.card_sdiff hsub, Finset.card_range]
  have hTR : totalRequired cfg = totalAsignaciones cfg := by
    unfold totalRequired totalAsignaciones
    rw [hW]
  have hTL : targetLow cfg = minAsignPorInst cfg := by
    unfold targetLow minAsignPorInst
    rw [if_pos hn, hTR]
  have hTH : targetHigh cfg = maxAsignPorInst cfg := by
    unfold targetHigh maxAsignPorInst
    rw [hTR, hTL]
    by_cases hmod : totalAsignaciones cfg % cfg.numInstructores ≠ 0
    · rw [if_pos hmod, if_pos ⟨hn, hmod⟩]
    · rw [if_neg hmod, if_neg (by rintro ⟨_, hc⟩; exact hmod hc)]
      omega
  have hM : targetMargin cfg = margen cfg := by
    rw [margen_eq_formula]
    unfold targetMargin
    rw [hTL]
  intro i hi
  rw [hTL, hTH, hM]
  exact h.2.2.2.2.2 heq hn i hi

/-- Witness for `c3_banda_equidad` at the base configuration. -/
theorem c3_banda_equidad_witness :
    esSolucion cfgBase xTodo ∧
      max 0 ((targetLow cfgBase : ℤ) - (targetMargin cfgBase : ℤ)) ≤
        (carga cfgBase xTodo 0 : ℤ) ∧
      carga cfgBase xTodo 0 ≤ targetHigh cfgBase + targetMargin cfgBase :=
  ⟨by decide,
   c3_banda_equidad cfgBase xTodo rfl (by decide) (by decide) (by decide) 0
     (by decide)⟩

/-! ### C9: zero groups still reach the solver -/

/-- helper: with zero groups the emission loop produces no triple. -/
lemma asignaciones_grupos_cero (cfg : Config) (x : ℕ → ℕ → ℕ → Bool)
    (hG : cfg.numGrupos = 0) : asignaciones cfg x = [] := by
  unfold asignaciones
  rw [hG]
  simp

/-- helper: with zero groups materialization yields no row. -/
lemma materializar_grupos_cero (cfg : Config) (x : ℕ → ℕ → ℕ → Bool)
    (hG : cfg.numGrupos = 0) : materializar cfg x = [] := by
  unfold materializar filasResultado
  rw [asignaciones_grupos_cero cfg x hG]
  rfl

/-- helper: an all-zero list has zero maximum. -/
lemma maxDeLista_zero : ∀ l : List ℕ, (∀ a ∈ l, a = 0) → maxDeLista l = 0 := by
  intro l
  induction l with
  | nil => intro _; rfl
  | cons a t ih =>
    intro h
    unfold maxDeLista
    rw [h a (List.mem_cons_self a t), ih fun b hb => h b (List.mem_cons_of_mem a hb)]
    simp

/-- C9: with zero groups, at least one instructor and a working day,
the engine does not reject the input: control reaches the solver, the
all-false valuation satisfies the (variable-free) model, every load is
fixed to 0the objective value is 0and when the oracle reports
OPTIMAL the function returns status OPTIMAL with an empty row list. -/
theorem c9_grupos_cero (cfg : Config) (solver : SolverResult)
    (hG : cfg.numGrupos = 0) (hn : 0 < cfg.numInstructores)
    (hd : cfg.diasNoLaborables.card < cfg.numDias)
    (hst : solver.status = RawStatus.optimal) :
    llamaAlSolver cfg = true ∧
      esSolucion cfg (fun _ _ _ => false) ∧
      (∀ x i, carga cfg x i = 0) ∧
      (∀ x, objetivoValor cfg x = 0) ∧
      (generarHorarioOptimo cfg solver).horario = [] ∧
      (generarHorarioOptimo cfg solver).status = "OPTIMAL" := by
  have hcarga : ∀ x i, carga cfg x i = 0 := fun x i =>
    sum_map_range_zero _ _ fun b hb => by simp [asigsDia, hG]
  have hout : generarHorarioOptimo cfg solver =
      { horario := materializar cfg solver.value,
        status := statusName solver.status,
        stats := [("status", .s (statusName solver.status)),
          ("tiempo_solver", .n solver.wallTime),
          ("conflictos", .n solver.conflicts),
          ("ramas", .n solver.branches),
          ("dias_laborables", .n (diasLaborables cfg)),
          ("total_asignaciones_esperadas", .n (totalAsignaciones cfg))] } := by
    simp only [generarHorarioOptimo]
    rw [if_neg (Nat.not_le.mpr hd), if_pos (Or.inl hst)]
  refine ⟨?_, ?_, hcarga, ?_, ?_, ?_⟩
  · simp [llamaAlSolver, Nat.not_le.mpr hd]
  · refine ⟨?_, ?_, ?_, ?_, ?_, ?_⟩
    · intro d hd2 g hg i hi
      rfl
    · intro d hd2 hdn g hg
      rw [hG] at hg
      exact absurd hg (Nat.not_lt_zero g)
    · intro i hi d hd2
      simp [asigsDia]
    · intro i hi w hw
      have hz : cargaSemana cfg (fun _ _ _ => false) i w = 0 := by
        apply List.sum_eq_zero
        intro y hy
        obtain ⟨a, ha, rfl⟩ := List.mem_map.mp hy
        simp [asigsDia]
      rw [hz]
      exact Nat.zero_le _
    · intro i hi w hw
      have hz : diasTrabajados cfg (fun _ _ _ => false) i w = 0 := by
        unfold diasTrabajados
        apply List.countP_eq_zero.mpr
        intro d hdm
        simp [asigsDia]
      rw [hz]
      exact Nat.zero_le _
    · intro hfe hn2 i hi
      have h0 : minAsignPorInst cfg = 0 := by
        unfold minAsignPorInst totalAsignaciones
        rw [if_pos hn2, hG]
        simp
      have hm1 : margen cfg = 1 := by
        unfold margen
        rw [h0]
        simp
      constructor
      · rw [hcarga, h0, hm1]
        decide
      · rw [hcarga]
        exact Nat.zero_le _
  · intro x
    unfold objetivoValor
    rw [maxDeLista_zero (cargasList cfg x) ?_]
    · exact Nat.zero_sub _
    · intro a ha
      obtain ⟨i, hi, rfl⟩ := List.mem_map.mp ha
      exact hcarga x i
  · rw [hout]
    exact materializar_grupos_cero cfg solver.value hG
  · rw [hout, hst]
    rfl

/-- `cfgBase` with zero groups. -/
def cfgC9 : Config := { cfgBase with numGrupos := 0, grupos := [] }

/-- Witness for `c9_grupos_cero` at the concrete zero-group input. -/
theorem c9_grupos_cero_witness :
    (generarHorarioOptimo cfgC9 solverEjemplo).status = "OPTIMAL" ∧
      (generarHorarioOptimo cfgC9 solverEjemplo).horario = [] :=
  ⟨(c9_grupos_cero cfgC9 solverEjemplo rfl (by decide) (by decide) rfl).2.2.2.2.2,
   (c9_grupos_cero cfgC9 solverEjemplo rfl (by decide) (by decide) rfl).2.2.2.2.1⟩

/-! ### C1: coverage of the emitted rows -/

/-- helper: the count of emitted triples satisfying `p`, written as the
nested day/group sums of the emission loops. -/
lemma countP_asignaciones (cfg : Config) (x : ℕ → ℕ → ℕ → Bool)
    (p : ℕ × ℕ × ℕ → Bool) :
    (asignaciones cfg x).countP p =
      ((List.range cfg.numDias).map fun d =>
        ((List.range cfg.numGrupos).map fun g =>
          (List.range cfg.numInstructores).countP fun i =>
            p (d, g, i) && x i d g).sum).sum := by
  unfold asignaciones
  rw [countP_flatMap_eq]
  apply congrArg List.sum
  apply List.map_congr_left
  intro d hd
  rw [countP_flatMap_eq]
  apply congrArg List.sum
  apply List.map_congr_left
  intro g hg
  rw [List.countP_map, List.countP_filter]
  rfl

/-- C1: in every accepted solution, the materialization loop emits
exactly one row for every (working day, group) pair, never two rows
with the same instructor on the same day, and no row at all for a
non-working day; the final output is a permutation of the rendered
emitted triples and every row carries the non-holiday flag. -/
theorem c1_cobertura_filas (cfg : Config) (x : ℕ → ℕ → ℕ → Bool)
    (h : esSolucion cfg x) :
    (∀ d < cfg.numDias, d ∉ cfg.diasNoLaborables → ∀ g < cfg.numGrupos,
        (asignaciones cfg x).countP
          (fun t => decide (t.1 = d) && decide (t.2.1 = g)) = 1) ∧
      (∀ i0 d0 : ℕ,
        (asignaciones cfg x).countP
          (fun t => decide (t.2.2 = i0) && decide (t.1 = d0)) ≤ 1) ∧
      (∀ t ∈ asignaciones cfg x, t.1 ∉ cfg.diasNoLaborables) ∧
      (∀ r ∈ materializar cfg x, r.festivo = "No") ∧
      (materializar cfg x).Perm (filasResultado cfg x) := by
  have hC : ∀ t ∈ asignaciones cfg x, t.1 ∉ cfg.diasNoLaborables := by
    intro t ht hmem
    unfold asignaciones at ht
    simp only [List.mem_flatMap, List.mem_map, List.mem_filter,
      List.mem_range] at ht
    obtain ⟨d, hd, g, hg, i, ⟨hi, hxi⟩, rfl⟩ := ht
    have hzero := h.1 d hmem g hg i hi
    rw [hzero] at hxi
    simp at hxi
  have hE : (materializar cfg x).Perm (filasResultado cfg x) :=
    List.perm_insertionSort _ _
  refine ⟨?_, ?_, hC, ?_, hE⟩
  · intro d0 hd0 hdn0 g0 hg0
    rw [countP_asignaciones]
    refine (sum_map_range_single _ _ d0 hd0 ?_).trans ?_
    · intro b hb hbne
      apply sum_map_range_zero
      intro g hg
      refine List.countP_eq_zero.mpr ?_
      intro a ha
      simp [hbne]
    · refine (sum_map_range_single _ _ g0 hg0 ?_).trans ?_
      · intro b hb hbne
        refine List.countP_eq_zero.mpr ?_
        intro a ha
        simp [hbne]
      · refine (List.countP_congr ?_).trans (h.2.1 d0 hd0 hdn0 g0 hg0)
        intro a ha
        simp
  · intro i0 d0
    rw [countP_asignaciones]
    by_cases hd0 : d0 < cfg.numDias
    · refine le_trans (le_of_eq (sum_map_range_single _ _ d0 hd0 ?_)) ?_
      · intro b hb hbne
        apply sum_map_range_zero
        intro g hg
        refine List.countP_eq_zero.mpr ?_
        intro a ha
        simp [hbne]
      · by_cases hi0 : i0 < cfg.numInstructores
        · have hmap : ∀ g ∈ List.range cfg.numGrupos,
              ((List.range cfg.numInstructores).countP fun a =>
                ((fun t : ℕ × ℕ × ℕ =>
                  decide (t.2.2 = i0) && decide (t.1 = d0)) (d0, g, a)) &&
                  x a d0 g) = if x i0 d0 g = true then 1 else 0 := by
            intro g hg
            rw [List.countP_congr (q := fun a => decide (a = i0) && x a d0 g) ?_,
              countP_range_decide_eq]
            · simp [hi0]
            · intro a ha
              simp
          rw [List.map_congr_left hmap, sum_indicator_eq_countP]
          exact h.2.2.1 i0 hi0 d0 hd0
        · have hz : ((List.range cfg.numGrupos).map fun g =>
              (List.range cfg.numInstructores).countP fun a =>
                ((fun t : ℕ × ℕ × ℕ =>
                  decide (t.2.2 = i0) && decide (t.1 = d0)) (d0, g, a)) &&
                  x a d0 g).sum = 0 := by
            apply sum_map_range_zero
            intro b hb
            refine List.countP_eq_zero.mpr ?_
            intro a ha hp
            rw [List.mem_range] at ha
            simp only [Bool.and_eq_true, decide_eq_true_eq] at hp
            exact hi0 (hp.1.1 ▸ ha)
          rw [hz]
          exact Nat.zero_le 1
    · have hz : ∀ b, b < cfg.numDias →
          ((List.range cfg.numGrupos).map fun g =>
            (List.range cfg.numInstructores).countP fun i =>
              ((fun t : ℕ × ℕ × ℕ =>
                decide (t.2.2 = i0) && decide (t.1 = d0)) (b, g, i)) &&
                x i b g).sum = 0 := by
        intro b hb
        apply sum_map_range_zero
        intro g hg
        refine List.countP_eq_zero.mpr ?_
        intro a ha
        simp [show b ≠ d0 by omega]
      rw [sum_map_range_zero _ _ hz]
      exact Nat.zero_le 1
  · intro r hr
    have hr2 : r ∈ filasResultado cfg x := hE.mem_iff.mp hr
    unfold filasResultado at hr2
    obtain ⟨t, ht, rfl⟩ := List.mem_map.mp hr2
    have hnw : t.1 ∉ cfg.diasNoLaborables := hC t ht
    simp [renderRow, hnw]

/-- Witness for `c1_cobertura_filas` at the base configuration. -/
theorem c1_cobertura_filas_witness :
    esSolucion cfgBase xTodo ∧
      (asignaciones cfgBase xTodo).countP
        (fun t => decide (t.1 = 0) && decide (t.2.1 = 0)) = 1 ∧
      ∀ r ∈ materializar cfgBase xTodo, r.festivo = "No" :=
  ⟨by decide,
   (c1_cobertura_filas cfgBase xTodo (by decide)).1 0 (by decide) (by decide) 0
     (by decide),
   (c1_cobertura_filas cfgBase xTodo (by decide)).2.2.2.1⟩
